import Mathlib

/-!
Shallow embedding of `src/include/dropins/pthreadpp.h` (namespace `pthreadpp`).

The header defines a generic lifecycle wrapper `wrapper_base<ObjectType, DestroyFn>`
holding one pthread object plus a validity flag, a synchronization-object wrapper
`wrapper<ObjectType, AttributeType, InitFn, DestroyFn>` adding `init`, and an
error-checked `mutex` facade that translates nonzero primitive return codes into a
thrown `fatal_error` (except for `EBUSY` in `trylock`, reported as `false`).

Modelling choices:
* The pthread object type `ObjectType` is a type parameter `α`; attribute objects are
  `β`.  A `const AttributeType*` argument is `Option β` (`none` = null = default
  attributes); the overloaded `operator&`, which returns a possibly-null pointer, is
  `Option α`.
* The primitive functions (template parameters / the `pthread_mutex_*` calls) are
  function parameters returning the C `int` code as `Int`.  `pthread_mutex_init`
  writes through its pointer, so it is modelled as `α → Option β → α × Int`
  (new object value, code).  The internal locked/unlocked state of the OS mutex is
  owned by the primitive, not by this layer, and is outside the model.
* Operations additionally return a `Nat` counting how many times the primitive
  destroy function was invoked during the call, so that claims of the form
  "invokes the primitive destroy once / not again" can be stated.
* Throwing `fatal_error` is modelled with `Except fatal_error`.
-/

namespace pthreadpp

/-- errno constant `EINVAL` (`<errno.h>`, Linux value 22). -/
def EINVAL : Int := 22

/-- errno constant `EBUSY` (`<errno.h>`, Linux value 16). -/
def EBUSY : Int := 16

/-- State of `wrapper_base<ObjectType, DestroyFn>` (pthreadpp.h lines 64-127):
the contained pthread object `m_object` and the validity flag `m_valid`.
A default-constructed wrapper has `m_valid = false` and indeterminate `m_object`
(modelled by whatever value the state carries). -/
structure wrapper_base (α : Type) where
  m_valid : Bool
  m_object : α
  deriving DecidableEq, Repr

/-- `const ObjectType* operator&() const` (line 70): `m_valid ? &m_object : 0`.
A null pointer is `none`; a pointer to the contained object is `some m_object`. -/
def wrapper_base.op_addr_const {α : Type} (w : wrapper_base α) : Option α :=
  if w.m_valid then some w.m_object else none

/-- `ObjectType* operator&()` (line 73), the mutable overload: same body. -/
def wrapper_base.op_addr_mut {α : Type} (w : wrapper_base α) : Option α :=
  if w.m_valid then some w.m_object else none

/-- `bool is_valid() const` (line 77). -/
def wrapper_base.is_valid {α : Type} (w : wrapper_base α) : Bool :=
  w.m_valid

/-- `int destroy()` (lines 81-88):
if not valid, return `EINVAL` without touching the primitive; otherwise call
`DestroyFn(&m_object)`, set `m_valid = !!error` (so the wrapper stays valid exactly
when the primitive destroy returned a nonzero code) and return the code.
Result: (returned code, new wrapper state, number of `DestroyFn` invocations). -/
def wrapper_base.destroy {α : Type} (DestroyFn : α → Int) (w : wrapper_base α) :
    Int × wrapper_base α × Nat :=
  if !w.m_valid then
    (EINVAL, w, 0)
  else
    (DestroyFn w.m_object,
      { w with m_valid := DestroyFn w.m_object != 0 }, 1)

/-- `void attach(const ObjectType&)` (lines 94-98): `destroy()` (result ignored),
then store the new object and mark valid.
Result: (new wrapper state, number of `DestroyFn` invocations). -/
def wrapper_base.attach {α : Type} (DestroyFn : α → Int) (w : wrapper_base α)
    (object : α) : wrapper_base α × Nat :=
  ({ m_valid := true, m_object := object },
    (wrapper_base.destroy DestroyFn w).2.2)

/-- `ObjectType detach()` (lines 99-102): mark invalid, return the stored object
by value.  No primitive function is invoked. -/
def wrapper_base.detach {α : Type} (w : wrapper_base α) : α × wrapper_base α :=
  (w.m_object, { w with m_valid := false })

/-- Protected `init_done(int)` (lines 114-117): `m_valid = !init_error`, return the
code unchanged. -/
def wrapper_base.init_done {α : Type} (w : wrapper_base α) (init_error : Int) :
    Int × wrapper_base α :=
  (init_error, { w with m_valid := init_error == 0 })

/-- Protected `ObjectType* handle()` (lines 118-120): pointer to `m_object`
unconditionally (never null, unlike `operator&`). -/
def wrapper_base.handle {α : Type} (w : wrapper_base α) : α :=
  w.m_object

/-- `wrapper_base` and its subclasses `attr_wrapper` and `wrapper` declare no
destructor (pthreadpp.h lines 64-178), and their members (a `bool` and a trivially
destructible pthread struct) run no code on destruction, so the implicitly-defined
C++ destructor invokes `DestroyFn` zero times.  This definition records the number
of `DestroyFn` invocations performed when a wrapper object's lifetime ends. -/
def wrapper_base.lifetime_end_destroy_calls {α : Type} (_w : wrapper_base α) : Nat :=
  0

/-- `int wrapper<...>::init(const AttributeType* attrs = 0)` (lines 174-177):
`base::destroy()` (result ignored), then `InitFn(base::handle(), attrs)` which
writes the object through the handle and returns a code, then
`base::init_done(code)`.
Result: (code, new wrapper state, number of `DestroyFn` invocations). -/
def wrapper.init {α β : Type} (InitFn : α → Option β → α × Int)
    (DestroyFn : α → Int) (attrs : Option β) (w : wrapper_base α) :
    Int × wrapper_base α × Nat :=
  (
    (InitFn (wrapper_base.destroy DestroyFn w).2.1.m_object attrs).2,
    { m_valid := (InitFn (wrapper_base.destroy DestroyFn w).2.1.m_object attrs).2 == 0,
      m_object := (InitFn (wrapper_base.destroy DestroyFn w).2.1.m_object attrs).1 },
    (wrapper_base.destroy DestroyFn w).2.2)

/-- `class fatal_error` (lines 229-243): carries the numeric code returned by the
failing pthread function. -/
structure fatal_error where
  m_error_code : Int
  deriving DecidableEq, Repr

/-- `int fatal_error::error_code() const` (line 235). -/
def fatal_error.error_code (e : fatal_error) : Int :=
  e.m_error_code

/-- The pthread mutex primitives used by `mutex_wrapper` and the `mutex` facade:
`pthread_mutex_init` (receives the object through `handle()`, which is never null,
and the optional attributes), `pthread_mutex_destroy` (receives the object through
`&m_object`), and `pthread_mutex_lock` / `pthread_mutex_trylock` /
`pthread_mutex_unlock`, which receive the result of the wrapper's overloaded
`operator&` and hence a possibly-null pointer. -/
structure pthread_api (α β : Type) where
  mutex_init : α → Option β → α × Int
  mutex_destroy : α → Int
  mutex_lock : Option α → Int
  mutex_trylock : Option α → Int
  mutex_unlock : Option α → Int

/-- State of `class mutex` (lines 248-301): the single member
`mutex_wrapper m_mutex`. -/
structure mutex (α : Type) where
  m_mutex : wrapper_base α
  deriving DecidableEq, Repr

/-- `static void check_error(int)` (lines 294-298): throw `fatal_error(error_code)`
when the code is nonzero. -/
def mutex.check_error (error_code : Int) : Except fatal_error Unit :=
  if error_code != 0 then
    Except.error { m_error_code := error_code }
  else
    Except.ok ()

/-- `explicit mutex(const pthread_mutexattr_t* attrs = 0)` (lines 250-252):
the member `m_mutex` is default-constructed (invalid, indeterminate object `junk`),
then `check_error(m_mutex.init(attrs))`.  On a nonzero code the constructor throws
and no object becomes reachable; otherwise the object holds the initialized wrapper.
Result: (constructed object or thrown error, number of `pthread_mutex_destroy`
invocations during construction). -/
def mutex.mk_attrs {α β : Type} (P : pthread_api α β) (junk : α)
    (attrs : Option β) : Except fatal_error (mutex α) × Nat :=
  match mutex.check_error
      (wrapper.init P.mutex_init P.mutex_destroy attrs
        { m_valid := false, m_object := junk }).1 with
  | Except.error e =>
      (Except.error e,
        (wrapper.init P.mutex_init P.mutex_destroy attrs
          { m_valid := false, m_object := junk }).2.2)
  | Except.ok _ =>
      (Except.ok
        { m_mutex :=
            (wrapper.init P.mutex_init P.mutex_destroy attrs
              { m_valid := false, m_object := junk }).2.1 },
        (wrapper.init P.mutex_init P.mutex_destroy attrs
          { m_valid := false, m_object := junk }).2.2)

/-- `explicit mutex(const pthread_mutex_t& initializer)` (lines 253-256): the member
is constructed with `wrapper_base(initializer)`, i.e. valid and holding the value. -/
def mutex.mk_init {α : Type} (v : α) : mutex α :=
  { m_mutex := { m_valid := true, m_object := v } }

/-- `~mutex()` (lines 258-260): `m_mutex.destroy()`, error code discarded.
Result: (wrapper state afterwards, number of `pthread_mutex_destroy` invocations). -/
def mutex.dtor {α β : Type} (P : pthread_api α β) (m : mutex α) :
    wrapper_base α × Nat :=
  ((wrapper_base.destroy P.mutex_destroy m.m_mutex).2.1,
    (wrapper_base.destroy P.mutex_destroy m.m_mutex).2.2)

/-- `void lock()` (lines 262-264): `check_error(pthread_mutex_lock(&m_mutex))`,
where `&m_mutex` is the wrapper's overloaded `operator&`.  The body assigns to no
member, so the facade state is returned unchanged.
Result: (unit or thrown error, facade state, number of `pthread_mutex_lock`
invocations). -/
def mutex.lock {α β : Type} (P : pthread_api α β) (m : mutex α) :
    Except fatal_error Unit × mutex α × Nat :=
  (mutex.check_error (P.mutex_lock (wrapper_base.op_addr_mut m.m_mutex)), m, 1)

/-- `bool trylock()` (lines 265-272): call `pthread_mutex_trylock(&m_mutex)` once;
`EBUSY` yields `false`, any other nonzero code throws via `check_error`, zero
yields `true`.
Result: (bool or thrown error, facade state, number of `pthread_mutex_trylock`
invocations). -/
def mutex.trylock {α β : Type} (P : pthread_api α β) (m : mutex α) :
    Except fatal_error Bool × mutex α × Nat :=
  if P.mutex_trylock (wrapper_base.op_addr_mut m.m_mutex) == EBUSY then
    (Except.ok false, m, 1)
  else
    match mutex.check_error (P.mutex_trylock (wrapper_base.op_addr_mut m.m_mutex)) with
    | Except.error e => (Except.error e, m, 1)
    | Except.ok _ => (Except.ok true, m, 1)

/-- `void unlock()` (lines 273-275): `check_error(pthread_mutex_unlock(&m_mutex))`.
Result: (unit or thrown error, facade state, number of `pthread_mutex_unlock`
invocations). -/
def mutex.unlock {α β : Type} (P : pthread_api α β) (m : mutex α) :
    Except fatal_error Unit × mutex α × Nat :=
  (mutex.check_error (P.mutex_unlock (wrapper_base.op_addr_mut m.m_mutex)), m, 1)

/-- `const pthread_mutex_t* handle() const` (lines 278-280): `&m_mutex`, i.e. the
wrapper's overloaded `operator&` (null when the wrapper is invalid). -/
def mutex.handle_const {α : Type} (m : mutex α) : Option α :=
  wrapper_base.op_addr_const m.m_mutex

/-- `pthread_mutex_t* handle()` (lines 281-283): the mutable overload. -/
def mutex.handle_mut {α : Type} (m : mutex α) : Option α :=
  wrapper_base.op_addr_mut m.m_mutex

/-- One observable call on a constructed `mutex` facade: `lock()`, `trylock()`,
`unlock()`, or one of the two `handle()` accessors. -/
inductive mutex_op where
  | op_lock
  | op_trylock
  | op_unlock
  | op_handle_const
  | op_handle_mut
  deriving DecidableEq, Repr

/-- Facade state after one call.  `lock`, `trylock` and `unlock` return the facade
state component of the corresponding operation; the `handle` accessors read the
state without modifying it. -/
def mutex.step {α β : Type} (P : pthread_api α β) (o : mutex_op) (m : mutex α) :
    mutex α :=
  match o with
  | mutex_op.op_lock => (mutex.lock P m).2.1
  | mutex_op.op_trylock => (mutex.trylock P m).2.1
  | mutex_op.op_unlock => (mutex.unlock P m).2.1
  | mutex_op.op_handle_const => m
  | mutex_op.op_handle_mut => m

/-- Facade state after a sequence of calls. -/
def mutex.run {α β : Type} (P : pthread_api α β) (ops : List mutex_op)
    (m : mutex α) : mutex α :=
  ops.foldl (fun s o => mutex.step P o s) m

end pthreadpp

namespace pthreadpp

/-- Stub primitive suite for concrete evaluation: init, lock, unlock and destroy
succeed; try-lock reports `EBUSY`. -/
def test_api_busy : pthread_api Int Int :=
  { mutex_init := fun o _ => (o, 0), mutex_destroy := fun _ => 0,
    mutex_lock := fun _ => 0, mutex_trylock := fun _ => EBUSY,
    mutex_unlock := fun _ => 0 }

/-- Stub primitive suite where every call fails with code 7. -/
def test_api_fail : pthread_api Int Int :=
  { mutex_init := fun o _ => (o, 7), mutex_destroy := fun _ => 7,
    mutex_lock := fun _ => 7, mutex_trylock := fun _ => 7,
    mutex_unlock := fun _ => 7 }

/-- Stub primitive suite where every call succeeds. -/
def test_api_ok : pthread_api Int Int :=
  { mutex_init := fun o _ => (o, 0), mutex_destroy := fun _ => 0,
    mutex_lock := fun _ => 0, mutex_trylock := fun _ => 0,
    mutex_unlock := fun _ => 0 }

/-- `check_error` returns normally exactly on a zero code. -/
theorem mutex.check_error_ok_iff (c : Int) :
    mutex.check_error c = Except.ok () ↔ c = 0 := by
  by_cases h : c = 0 <;> simp [mutex.check_error, h]

/-- `check_error` throws `fatal_error(c)` on any nonzero code `c`. -/
theorem mutex.check_error_ne (c : Int) (h : c ≠ 0) :
    mutex.check_error c = Except.error { m_error_code := c } := by
  simp [mutex.check_error, h]

/-- Explicit form of construction from attributes: the destroy call inside `init`
hits an invalid fresh wrapper, so the primitive destroy is never invoked, and the
outcome is decided by the code of `mutex_init` applied to the indeterminate
object and the attributes. -/
theorem mutex.mk_attrs_eq {α β : Type} (P : pthread_api α β) (junk : α)
    (attrs : Option β) :
    mutex.mk_attrs P junk attrs =
      if (P.mutex_init junk attrs).2 = 0 then
        (Except.ok { m_mutex :=
          { m_valid := true, m_object := (P.mutex_init junk attrs).1 } }, 0)
      else
        (Except.error { m_error_code := (P.mutex_init junk attrs).2 }, 0) := by
  by_cases h : (P.mutex_init junk attrs).2 = 0 <;>
    simp [mutex.mk_attrs, wrapper.init, wrapper_base.destroy, mutex.check_error, h]

/-- A single facade call leaves the facade state unchanged: none of `lock`,
`trylock`, `unlock`, `handle` assigns to a member. -/
theorem mutex.step_state {α β : Type} (P : pthread_api α β) (o : mutex_op)
    (m : mutex α) : mutex.step P o m = m := by
  cases o <;> simp only [mutex.step, mutex.lock, mutex.trylock, mutex.unlock]
  split
  · rfl
  · split <;> rfl

/-- A sequence of facade calls leaves the facade state unchanged. -/
theorem mutex.run_state {α β : Type} (P : pthread_api α β) (ops : List mutex_op)
    (m : mutex α) : mutex.run P ops m = m := by
  induction ops generalizing m with
  | nil => rfl
  | cons o rest ih =>
      show mutex.run P rest (mutex.step P o m) = m
      rw [mutex.step_state, ih]

end pthreadpp

namespace pthreadpp

/-- C1 counterexample: with a primitive destroy that returns the nonzero code 5,
`destroy()` on a valid wrapper invokes the primitive once and returns 5, but the
wrapper is NOT marked invalid afterward (`m_valid` is still `true`), contradicting
the claim that the wrapper is marked invalid regardless of the returned code. -/
theorem destroy_error_keeps_valid_cex :
    (wrapper_base.destroy (fun _ => (5 : Int))
        { m_valid := true, m_object := (0 : Int) }).2.2 = 1 ∧
    (wrapper_base.destroy (fun _ => (5 : Int))
        { m_valid := true, m_object := (0 : Int) }).1 = 5 ∧
    ¬ (wrapper_base.destroy (fun _ => (5 : Int))
        { m_valid := true, m_object := (0 : Int) }).2.1.m_valid = false := by
  decide

/-- C1 amended: on a valid wrapper, `destroy()` invokes the primitive destroy
exactly once, returns its code, leaves the stored object unchanged, and marks the
wrapper invalid exactly when that code is zero (on a nonzero code the wrapper
remains valid). -/
theorem destroy_valid_spec {α : Type} (DestroyFn : α → Int) (w : wrapper_base α)
    (h : w.m_valid = true) :
    (wrapper_base.destroy DestroyFn w).1 = DestroyFn w.m_object ∧
    (wrapper_base.destroy DestroyFn w).2.2 = 1 ∧
    ((wrapper_base.destroy DestroyFn w).2.1.m_valid = false ↔
      DestroyFn w.m_object = 0) ∧
    (wrapper_base.destroy DestroyFn w).2.1.m_object = w.m_object := by
  simp [wrapper_base.destroy, h]

/-- C1 witness: the amended statement evaluated at a concrete succeeding destroy. -/
theorem destroy_valid_spec_witness :
    (wrapper_base.destroy (fun _ => (0 : Int))
        { m_valid := true, m_object := (7 : Int) }).2.2 = 1 :=
  (destroy_valid_spec (fun _ => (0 : Int))
    { m_valid := true, m_object := (7 : Int) } rfl).2.1

/-- C2: `wrapper_base` (and its subclasses) declare no destructor, so when a valid
wrapper's lifetime ends the implicitly-defined destructor invokes the primitive
destroy zero times — not once as the claim (and the header's own comment promising
automatic destruction) requires. -/
theorem lifetime_end_no_destroy :
    wrapper_base.lifetime_end_destroy_calls
        { m_valid := true, m_object := (0 : Int) } = 0 ∧
    wrapper_base.lifetime_end_destroy_calls
        { m_valid := true, m_object := (0 : Int) } ≠ 1 := by
  decide

/-- C3 counterexample: with a primitive destroy that always fails with code 5, the
first `destroy()` on a valid wrapper returns 5 and leaves the wrapper valid, so the
second `destroy()` invokes the primitive destroy AGAIN (one more invocation) and
returns 5, not the invalid-state code `EINVAL` — contradicting the claim that the
second call reports the invalid state and skips the primitive regardless of the
first call's outcome. -/
theorem double_destroy_cex :
    (wrapper_base.destroy (fun _ => (5 : Int))
        (wrapper_base.destroy (fun _ => (5 : Int))
          { m_valid := true, m_object := (0 : Int) }).2.1).2.2 = 1 ∧
    (wrapper_base.destroy (fun _ => (5 : Int))
        (wrapper_base.destroy (fun _ => (5 : Int))
          { m_valid := true, m_object := (0 : Int) }).2.1).1 ≠ EINVAL := by
  decide

/-- C3 amended: on a valid wrapper the first `destroy()` invokes the primitive once
and returns its code; if that code was zero the wrapper becomes invalid and the
second `destroy()` returns `EINVAL` without invoking the primitive again; if the
code was nonzero the wrapper remains valid and the second `destroy()` invokes the
primitive destroy once more, returning its code. -/
theorem double_destroy_spec {α : Type} (DestroyFn : α → Int) (w : wrapper_base α)
    (h : w.m_valid = true) :
    (wrapper_base.destroy DestroyFn w).1 = DestroyFn w.m_object ∧
    (wrapper_base.destroy DestroyFn w).2.2 = 1 ∧
    (DestroyFn w.m_object = 0 →
      (wrapper_base.destroy DestroyFn w).2.1.m_valid = false ∧
      (wrapper_base.destroy DestroyFn
          (wrapper_base.destroy DestroyFn w).2.1).1 = EINVAL ∧
      (wrapper_base.destroy DestroyFn
          (wrapper_base.destroy DestroyFn w).2.1).2.2 = 0) ∧
    (DestroyFn w.m_object ≠ 0 →
      (wrapper_base.destroy DestroyFn w).2.1.m_valid = true ∧
      (wrapper_base.destroy DestroyFn
          (wrapper_base.destroy DestroyFn w).2.1).2.2 = 1 ∧
      (wrapper_base.destroy DestroyFn
          (wrapper_base.destroy DestroyFn w).2.1).1 = DestroyFn w.m_object) := by
  obtain ⟨v, o⟩ := w
  simp only at h
  subst h
  by_cases h0 : DestroyFn o = 0 <;>
    simp [wrapper_base.destroy, h0]

/-- C3 witness: the amended statement evaluated at a concrete succeeding destroy. -/
theorem double_destroy_spec_witness :
    (wrapper_base.destroy (fun _ => (0 : Int))
        (wrapper_base.destroy (fun _ => (0 : Int))
          { m_valid := true, m_object := (4 : Int) }).2.1).1 = EINVAL :=
  ((double_destroy_spec (fun _ => (0 : Int))
      { m_valid := true, m_object := (4 : Int) } rfl).2.2.1 rfl).2.1

end pthreadpp

namespace pthreadpp

/-- C4: a mutex facade constructed from attributes without throwing holds a valid
wrapper; a facade constructed from an existing initializer value is valid; validity
is preserved by any sequence of `lock`/`trylock`/`unlock`/`handle` calls; and a
nonzero primitive init code never yields a reachable object. -/
theorem mutex_valid_invariant {α β : Type} (P : pthread_api α β) (junk : α)
    (attrs : Option β) :
    (∀ (m : mutex α) (n : Nat),
        mutex.mk_attrs P junk attrs = (Except.ok m, n) →
        m.m_mutex.m_valid = true) ∧
    (∀ v : α, (mutex.mk_init v).m_mutex.m_valid = true) ∧
    (∀ (Q : pthread_api α β) (ops : List mutex_op) (m : mutex α),
        m.m_mutex.m_valid = true →
        (mutex.run Q ops m).m_mutex.m_valid = true) ∧
    ((P.mutex_init junk attrs).2 ≠ 0 →
        ∀ (m : mutex α) (n : Nat),
          mutex.mk_attrs P junk attrs ≠ (Except.ok m, n)) := by
  refine ⟨?_, ?_, ?_, ?_⟩
  · intro m n hok
    rw [mutex.mk_attrs_eq] at hok
    by_cases h : (P.mutex_init junk attrs).2 = 0
    · rw [if_pos h] at hok
      simp only [Prod.mk.injEq, Except.ok.injEq] at hok
      rw [← hok.1]
    · rw [if_neg h] at hok
      simp at hok
  · intro v
    rfl
  · intro Q ops m hm
    rw [mutex.run_state]
    exact hm
  · intro hne m n
    rw [mutex.mk_attrs_eq, if_neg hne]
    simp

/-- C4 witness: concrete successful construction and a concrete call sequence. -/
theorem mutex_valid_invariant_witness :
    (mutex.mk_init (3 : Int)).m_mutex.m_valid = true ∧
    (mutex.run test_api_ok
        [mutex_op.op_lock, mutex_op.op_trylock, mutex_op.op_unlock,
         mutex_op.op_handle_const, mutex_op.op_handle_mut]
        (mutex.mk_init (3 : Int))).m_mutex.m_valid = true ∧
    (mutex.mk_attrs test_api_ok (0 : Int) none =
        (Except.ok { m_mutex := { m_valid := true, m_object := (0 : Int) } }, 0) →
      ({ m_mutex := { m_valid := true, m_object := (0 : Int) } } :
        mutex Int).m_mutex.m_valid = true) :=
  ⟨(mutex_valid_invariant test_api_ok 0 none).2.1 3,
   (mutex_valid_invariant test_api_ok 0 none).2.2.1 test_api_ok
     [mutex_op.op_lock, mutex_op.op_trylock, mutex_op.op_unlock,
      mutex_op.op_handle_const, mutex_op.op_handle_mut]
     (mutex.mk_init (3 : Int)) rfl,
   (mutex_valid_invariant test_api_ok 0 none).1
     { m_mutex := { m_valid := true, m_object := (0 : Int) } } 0⟩

/-- C5: `trylock()` invokes the primitive try-lock exactly once and leaves the
facade state unchanged; an `EBUSY` result yields `false` without throwing; any
other nonzero code `c` throws `fatal_error` carrying exactly `c`; a zero result
yields `true`. -/
theorem trylock_spec {α β : Type} (P : pthread_api α β) (m : mutex α) :
    (mutex.trylock P m).2.2 = 1 ∧
    (mutex.trylock P m).2.1 = m ∧
    (P.mutex_trylock (wrapper_base.op_addr_mut m.m_mutex) = EBUSY →
      (mutex.trylock P m).1 = Except.ok false) ∧
    (∀ c : Int, P.mutex_trylock (wrapper_base.op_addr_mut m.m_mutex) = c →
      c ≠ EBUSY → c ≠ 0 →
      (mutex.trylock P m).1 = Except.error { m_error_code := c }) ∧
    (P.mutex_trylock (wrapper_base.op_addr_mut m.m_mutex) = 0 →
      (mutex.trylock P m).1 = Except.ok true) := by
  refine ⟨?_, ?_, ?_, ?_, ?_⟩
  · unfold mutex.trylock
    split
    · rfl
    · split <;> rfl
  · unfold mutex.trylock
    split
    · rfl
    · split <;> rfl
  · intro hb
    simp [mutex.trylock, hb]
  · intro c hc hcb hc0
    subst hc
    simp [mutex.trylock, hcb, mutex.check_error_ne _ hc0]
  · intro h0
    simp [mutex.trylock, h0, mutex.check_error, EBUSY]

/-- C5 witness: concrete `EBUSY` primitive yields a normal `false`. -/
theorem trylock_spec_witness :
    (mutex.trylock test_api_busy (mutex.mk_init (0 : Int))).1 = Except.ok false :=
  (trylock_spec test_api_busy (mutex.mk_init (0 : Int))).2.2.1 rfl

/-- C6: construction from attributes throws `fatal_error` carrying exactly the
nonzero code returned by the primitive init (and no object is produced: the result
is the thrown error); when init returns zero, construction completes with a valid
wrapper holding the initialized object.  In both cases the primitive destroy is
never invoked during construction (count 0). -/
theorem mk_attrs_spec {α β : Type} (P : pthread_api α β) (junk : α)
    (attrs : Option β) (c : Int) (h : (P.mutex_init junk attrs).2 = c) :
    (c ≠ 0 → mutex.mk_attrs P junk attrs =
      (Except.error { m_error_code := c }, 0)) ∧
    (c = 0 → mutex.mk_attrs P junk attrs =
      (Except.ok { m_mutex :=
        { m_valid := true, m_object := (P.mutex_init junk attrs).1 } }, 0)) := by
  subst h
  constructor
  · intro hne
    rw [mutex.mk_attrs_eq, if_neg hne]
  · intro h0
    rw [mutex.mk_attrs_eq, if_pos h0]

/-- C6 witness: a primitive init failing with code 7 makes construction throw
`fatal_error` with code 7. -/
theorem mk_attrs_spec_witness :
    mutex.mk_attrs test_api_fail (0 : Int) none =
      (Except.error { m_error_code := 7 }, 0) :=
  (mk_attrs_spec test_api_fail 0 none 7 rfl).1 (by decide)

/-- C7: `lock()` and `unlock()` each invoke the corresponding primitive call once,
leave the facade state unchanged, return normally exactly when that call returns
zero, and throw `fatal_error` carrying exactly the nonzero code otherwise. -/
theorem lock_unlock_spec {α β : Type} (P : pthread_api α β) (m : mutex α) :
    (mutex.lock P m).2.2 = 1 ∧
    (mutex.lock P m).2.1 = m ∧
    ((mutex.lock P m).1 = Except.ok () ↔
      P.mutex_lock (wrapper_base.op_addr_mut m.m_mutex) = 0) ∧
    (∀ c : Int, P.mutex_lock (wrapper_base.op_addr_mut m.m_mutex) = c → c ≠ 0 →
      (mutex.lock P m).1 = Except.error { m_error_code := c }) ∧
    (mutex.unlock P m).2.2 = 1 ∧
    (mutex.unlock P m).2.1 = m ∧
    ((mutex.unlock P m).1 = Except.ok () ↔
      P.mutex_unlock (wrapper_base.op_addr_mut m.m_mutex) = 0) ∧
    (∀ c : Int, P.mutex_unlock (wrapper_base.op_addr_mut m.m_mutex) = c → c ≠ 0 →
      (mutex.unlock P m).1 = Except.error { m_error_code := c }) := by
  refine ⟨rfl, rfl, ?_, ?_, rfl, rfl, ?_, ?_⟩
  · exact mutex.check_error_ok_iff _
  · intro c hc hc0
    subst hc
    exact mutex.check_error_ne _ hc0
  · exact mutex.check_error_ok_iff _
  · intro c hc hc0
    subst hc
    exact mutex.check_error_ne _ hc0

/-- C7 witness: a primitive lock failing with code 7 makes `lock()` throw
`fatal_error` with code 7. -/
theorem lock_unlock_spec_witness :
    (mutex.lock test_api_fail (mutex.mk_init (0 : Int))).1 =
      Except.error { m_error_code := 7 } :=
  (lock_unlock_spec test_api_fail (mutex.mk_init (0 : Int))).2.2.2.1 7 rfl
    (by decide)

end pthreadpp

namespace pthreadpp

/-- C8: on a valid wrapper, `detach()` returns the held object and the immediately
following `attach` of that same object restores exactly the original wrapper state
(valid, holding the same value); the `destroy()` inside `attach` sees an invalid
wrapper, so the primitive destroy is invoked zero times in the sequence (and
`attach`/`detach` take no init function at all, so the primitive init cannot be
invoked either). -/
theorem detach_attach_roundtrip {α : Type} (DestroyFn : α → Int)
    (w : wrapper_base α) (h : w.m_valid = true) :
    (wrapper_base.detach w).1 = w.m_object ∧
    (wrapper_base.detach w).2.m_valid = false ∧
    (wrapper_base.attach DestroyFn (wrapper_base.detach w).2
        (wrapper_base.detach w).1).1 = w ∧
    (wrapper_base.attach DestroyFn (wrapper_base.detach w).2
        (wrapper_base.detach w).1).2 = 0 := by
  obtain ⟨v, o⟩ := w
  simp only at h
  subst h
  simp [wrapper_base.detach, wrapper_base.attach, wrapper_base.destroy]

/-- C8 witness: the round trip evaluated at a concrete valid wrapper. -/
theorem detach_attach_roundtrip_witness :
    (wrapper_base.attach (fun _ => (0 : Int))
        (wrapper_base.detach { m_valid := true, m_object := (9 : Int) }).2
        (wrapper_base.detach { m_valid := true, m_object := (9 : Int) }).1).1 =
      { m_valid := true, m_object := (9 : Int) } :=
  (detach_attach_roundtrip (fun _ => (0 : Int))
    { m_valid := true, m_object := (9 : Int) } rfl).2.2.1

/-- C9: both overloads of `operator&` return null exactly when the wrapper is
invalid, and a pointer to the contained object exactly when it is valid. -/
theorem op_addr_spec {α : Type} (w : wrapper_base α) :
    (wrapper_base.op_addr_const w = none ↔ w.m_valid = false) ∧
    (wrapper_base.op_addr_const w = some w.m_object ↔ w.m_valid = true) ∧
    (wrapper_base.op_addr_mut w = none ↔ w.m_valid = false) ∧
    (wrapper_base.op_addr_mut w = some w.m_object ↔ w.m_valid = true) := by
  obtain ⟨v, o⟩ := w
  cases v <;> simp [wrapper_base.op_addr_const, wrapper_base.op_addr_mut]

/-- C9 witness: both overloads evaluated at a concrete invalid wrapper. -/
theorem op_addr_spec_witness :
    (wrapper_base.op_addr_const { m_valid := false, m_object := (0 : Int) } = none ↔
      ({ m_valid := false, m_object := (0 : Int) } :
        wrapper_base Int).m_valid = false) :=
  (op_addr_spec { m_valid := false, m_object := (0 : Int) }).1

/-- C10: `detach()` is total, with no validity precondition: on any wrapper,
valid or not, it returns the currently stored object by value and marks the
wrapper invalid, leaving the stored object field unchanged. -/
theorem detach_total_spec {α : Type} (w : wrapper_base α) :
    (wrapper_base.detach w).1 = w.m_object ∧
    (wrapper_base.detach w).2.m_valid = false ∧
    (wrapper_base.detach w).2.m_object = w.m_object := by
  simp [wrapper_base.detach]

end pthreadpp
